import Mathlib

/-!
Verification of the quote financial roll-up and versioning engine of the
Bid-Tool2 repository (an AV/LV contractor quoting application).

The repository ships the React frontend; the backend request handlers that
compute equipment line totals, the per-room/per-quote financial roll-up
(`/quotes/{id}/financials`) and the version snapshot history
(`/quotes/{id}/versions`, `/quotes/{id}/restore-version/{v}`) are consumed
by the frontend (`QuoteBuilder`, `QuoteList`) but their code is not part of
the source tree.  Those parts are therefore modelled from the specification
(sections 4.1-4.3), as flagged on each definition.  The frontend code that
is present (the simple page-level `calculateTotals` and the `fetchQuote`
field coercions) is embedded directly from the source.

All monetary values are rationals: the spec requires full-precision decimal
arithmetic internally, with rounding only at the presentation boundary.
-/

namespace BidTool

/-- Modelled from the spec: margin percentage, defined as 0 when the sell
price is 0 to avoid division by zero (spec section 4.1 and section 7). -/
def marginPercent (marginDollars totalPrice : ℚ) : ℚ :=
  if totalPrice = 0 then 0 else marginDollars / totalPrice * 100

/-- Modelled from the spec: an equipment line (spec section 3).  `quantity`,
`unit_cost`, the nullable `markup_override` and the `tax_exempt` flag are the
fields the pricing calculator reads. -/
structure Equipment where
  quantity : ℚ
  unit_cost : ℚ
  markup_override : Option ℚ
  tax_exempt : Bool
deriving DecidableEq, Repr

/-- Modelled from the spec: `unitSellPrice(unitCost, markupPercent) =
unitCost * (1 + markupPercent/100)` (spec section 4.1). -/
def unitSellPrice (unitCost markupPercent : ℚ) : ℚ :=
  unitCost * (1 + markupPercent / 100)

/-- Modelled from the spec: the effective markup of an equipment line is
`markup_override` when present, otherwise the quote's default markup
(spec sections 3 and 4.1). -/
def effectiveMarkup (e : Equipment) (defaultMarkup : ℚ) : ℚ :=
  e.markup_override.getD defaultMarkup

/-- Totals computed for one equipment line. -/
structure LineTotals where
  unit_price : ℚ
  total_price : ℚ
  total_cost : ℚ
  margin_dollars : ℚ
  margin_percent : ℚ
deriving DecidableEq, Repr

/-- Modelled from the spec: `equipmentLineTotals` (spec section 4.1). -/
def equipmentLineTotals (e : Equipment) (defaultMarkup : ℚ) : LineTotals :=
  { unit_price := unitSellPrice e.unit_cost (effectiveMarkup e defaultMarkup)
    total_price := unitSellPrice e.unit_cost (effectiveMarkup e defaultMarkup) * e.quantity
    total_cost := e.unit_cost * e.quantity
    margin_dollars :=
      unitSellPrice e.unit_cost (effectiveMarkup e defaultMarkup) * e.quantity
        - e.unit_cost * e.quantity
    margin_percent :=
      marginPercent
        (unitSellPrice e.unit_cost (effectiveMarkup e defaultMarkup) * e.quantity
          - e.unit_cost * e.quantity)
        (unitSellPrice e.unit_cost (effectiveMarkup e defaultMarkup) * e.quantity) }

/-- Modelled from the spec: a labor line (spec section 3). -/
structure Labor where
  cost_rate : ℚ
  sell_rate : ℚ
  hours : ℚ
deriving DecidableEq, Repr

/-- Totals computed for one labor line. -/
structure LaborTotals where
  total_price : ℚ
  total_cost : ℚ
  margin_dollars : ℚ
  margin_percent : ℚ
deriving DecidableEq, Repr

/-- Modelled from the spec: `laborLineTotals` (spec section 4.1). -/
def laborLineTotals (l : Labor) : LaborTotals :=
  { total_price := l.sell_rate * l.hours
    total_cost := l.cost_rate * l.hours
    margin_dollars := l.sell_rate * l.hours - l.cost_rate * l.hours
    margin_percent :=
      marginPercent (l.sell_rate * l.hours - l.cost_rate * l.hours)
        (l.sell_rate * l.hours) }

/-- Modelled from the spec: a third-party service carries either a flat cost
or a percentage of the room's equipment sell price (spec section 3). -/
inductive ServicePricing where
  | flatCost (cost : ℚ)
  | percentOfEquipment (pct : ℚ)
deriving DecidableEq, Repr

/-- Modelled from the spec: a service line (spec section 3). -/
structure Service where
  pricing : ServicePricing
deriving DecidableEq, Repr

/-- Modelled from the spec: `serviceLineTotals` — a flat cost passes
through, a percentage applies to the room's equipment sell subtotal
(spec section 4.1). -/
def serviceLineTotals (s : Service) (equipmentSellSubtotal : ℚ) : ℚ :=
  match s.pricing with
  | .flatCost c => c
  | .percentOfEquipment p => equipmentSellSubtotal * p / 100

/-- Modelled from the spec: a system owns equipment (spec section 3,
richer variant: rooms own systems, systems own equipment). -/
structure System where
  equipment : List Equipment
deriving DecidableEq, Repr

/-- Modelled from the spec: a room with its quantity multiplier, its
systems, and its directly owned labor and service lines (spec section 3). -/
structure Room where
  quantity : ℕ
  systems : List System
  labor : List Labor
  services : List Service
deriving DecidableEq, Repr

/-- Sum of a rational-valued function over a list. -/
def sumBy {α : Type} (f : α → ℚ) (xs : List α) : ℚ :=
  (xs.map f).sum

/-- All equipment lines of a room, across its systems. -/
def roomEquipment (r : Room) : List Equipment :=
  (r.systems.map System.equipment).flatten

/-- Single-instance equipment sell subtotal of a room. -/
def roomEquipPrice (dm : ℚ) (r : Room) : ℚ :=
  sumBy (fun e => (equipmentLineTotals e dm).total_price) (roomEquipment r)

/-- Single-instance equipment cost subtotal of a room. -/
def roomEquipCost (dm : ℚ) (r : Room) : ℚ :=
  sumBy (fun e => (equipmentLineTotals e dm).total_cost) (roomEquipment r)

/-- Single-instance labor sell subtotal of a room. -/
def roomLaborPrice (r : Room) : ℚ :=
  sumBy (fun l => (laborLineTotals l).total_price) r.labor

/-- Single-instance labor cost subtotal of a room. -/
def roomLaborCost (r : Room) : ℚ :=
  sumBy (fun l => (laborLineTotals l).total_cost) r.labor

/-- Single-instance services subtotal of a room; percentage-based services
apply to the room's fully resolved equipment sell subtotal
(spec sections 4.1 and 9). -/
def roomServicesPrice (dm : ℚ) (r : Room) : ℚ :=
  sumBy (fun s => serviceLineTotals s (roomEquipPrice dm r)) r.services

/-- Per-room financial summary (spec section 4.2). -/
structure RoomSummary where
  equipment_cost : ℚ
  equipment_price : ℚ
  labor_cost : ℚ
  labor_price : ℚ
  services_price : ℚ
  margin : ℚ
deriving DecidableEq, Repr

/-- Modelled from the spec: per-room roll-up — each figure is the
single-instance subtotal multiplied by the room's `quantity`; the margin is
`(equipment_price - equipment_cost) + (labor_price - labor_cost)`, services
contributing zero cost (spec section 4.2). -/
def roomSummary (dm : ℚ) (r : Room) : RoomSummary :=
  { equipment_cost := (r.quantity : ℚ) * roomEquipCost dm r
    equipment_price := (r.quantity : ℚ) * roomEquipPrice dm r
    labor_cost := (r.quantity : ℚ) * roomLaborCost r
    labor_price := (r.quantity : ℚ) * roomLaborPrice r
    services_price := (r.quantity : ℚ) * roomServicesPrice dm r
    margin := (r.quantity : ℚ) *
      ((roomEquipPrice dm r - roomEquipCost dm r)
        + (roomLaborPrice r - roomLaborCost r)) }

/-- Modelled from the spec: the taxable equipment sell price a room
contributes — only non-tax-exempt equipment lines count, multiplied by the
room's quantity (spec section 3 tax invariant). -/
def roomTaxablePrice (dm : ℚ) (r : Room) : ℚ :=
  (r.quantity : ℚ) *
    sumBy (fun e => if e.tax_exempt then 0 else (equipmentLineTotals e dm).total_price)
      (roomEquipment r)

/-- Modelled from the spec: a quote's financial settings and its room tree
(spec section 3). -/
structure Quote where
  equipment_markup_default : ℚ
  tax_rate : ℚ
  tax_enabled : Bool
  rooms : List Room
deriving DecidableEq, Repr

/-- Quote-level financial totals (spec section 4.2). -/
structure QuoteTotals where
  equipment_cost : ℚ
  equipment_price : ℚ
  labor_cost : ℚ
  labor_price : ℚ
  services_price : ℚ
  tax : ℚ
  grand_total : ℚ
  total_margin : ℚ
  margin_percent : ℚ
deriving DecidableEq, Repr

/-- Modelled from the spec: the quote-level roll-up — sums of the room-level
figures, tax over the summed taxable equipment price across rooms (only when
`tax_enabled`), `grand_total = equipment_price + labor_price +
services_price + tax`, `total_margin` the sum of room margins, and
`margin_percent` defined as 0 when `grand_total` is 0 (spec section 4.2). -/
def quoteTotals (q : Quote) : QuoteTotals :=
  { equipment_cost :=
      sumBy (fun r => (roomSummary q.equipment_markup_default r).equipment_cost) q.rooms
    equipment_price :=
      sumBy (fun r => (roomSummary q.equipment_markup_default r).equipment_price) q.rooms
    labor_cost :=
      sumBy (fun r => (roomSummary q.equipment_markup_default r).labor_cost) q.rooms
    labor_price :=
      sumBy (fun r => (roomSummary q.equipment_markup_default r).labor_price) q.rooms
    services_price :=
      sumBy (fun r => (roomSummary q.equipment_markup_default r).services_price) q.rooms
    tax :=
      if q.tax_enabled then
        sumBy (roomTaxablePrice q.equipment_markup_default) q.rooms * q.tax_rate / 100
      else 0
    grand_total :=
      sumBy (fun r => (roomSummary q.equipment_markup_default r).equipment_price) q.rooms
        + sumBy (fun r => (roomSummary q.equipment_markup_default r).labor_price) q.rooms
        + sumBy (fun r => (roomSummary q.equipment_markup_default r).services_price) q.rooms
        + (if q.tax_enabled then
            sumBy (roomTaxablePrice q.equipment_markup_default) q.rooms * q.tax_rate / 100
          else 0)
    total_margin :=
      sumBy (fun r => (roomSummary q.equipment_markup_default r).margin) q.rooms
    margin_percent :=
      marginPercent
        (sumBy (fun r => (roomSummary q.equipment_markup_default r).margin) q.rooms)
        (sumBy (fun r => (roomSummary q.equipment_markup_default r).equipment_price) q.rooms
          + sumBy (fun r => (roomSummary q.equipment_markup_default r).labor_price) q.rooms
          + sumBy (fun r => (roomSummary q.equipment_markup_default r).services_price) q.rooms
          + (if q.tax_enabled then
              sumBy (roomTaxablePrice q.equipment_markup_default) q.rooms * q.tax_rate / 100
            else 0)) }

/-- Modelled from the spec: one immutable version record of a quote —
its version number plus the serialized snapshot content, treated as an
opaque value of type `α` (spec sections 3 and 6). -/
structure Snapshot (α : Type) where
  version : ℕ
  content : α
deriving DecidableEq, Repr

/-- Modelled from the spec: the per-quote versioning state — the quote's
current `version` field, its live serialized content, and the list of
QuoteVersion rows in insertion order (spec section 4.3). -/
structure QuoteState (α : Type) where
  version : ℕ
  live : α
  history : List (Snapshot α)
deriving DecidableEq, Repr

/-- Largest version number recorded in the history (0 when empty). -/
def maxVersion {α : Type} (s : QuoteState α) : ℕ :=
  (s.history.map Snapshot.version).foldl max 0

/-- Modelled from the spec: creating a quote records version 1
(spec section 4.3: create counts as version 1). -/
def createQuote {α : Type} (c : α) : QuoteState α :=
  { version := 1, live := c, history := [{ version := 1, content := c }] }

/-- Modelled from the spec: `saveVersion` appends exactly one new immutable
snapshot with `version = current_max + 1`, never mutating a prior snapshot
(spec section 4.3). -/
def saveVersion {α : Type} (s : QuoteState α) (c : α) : QuoteState α :=
  { version := maxVersion s + 1
    live := c
    history := s.history ++ [{ version := maxVersion s + 1, content := c }] }

/-- Error taxonomy of the version manager: a requested version number absent
from history is a distinct not-found condition (spec section 7). -/
inductive RestoreError where
  | notFound
deriving DecidableEq, Repr

/-- Look up the snapshot with the given version number. -/
def findVersion {α : Type} (s : QuoteState α) (v : ℕ) : Option (Snapshot α) :=
  s.history.find? (fun snap => snap.version == v)

/-- Modelled from the spec: `restoreVersion` loads the named snapshot,
overwrites the live content to match it, and records the restoration as a
new version via `saveVersion`; when the target version does not exist it
fails with the not-found error and produces no new state
(spec sections 4.3 and 7). -/
def restoreVersion {α : Type} (s : QuoteState α) (v : ℕ) :
    Except RestoreError (QuoteState α) :=
  match findVersion s v with
  | none => Except.error RestoreError.notFound
  | some snap => Except.ok (saveVersion { s with live := snap.content } snap.content)

/-- States reachable by any sequence of create / save / successful restore
operations (spec section 4.3 state machine). -/
inductive Reachable {α : Type} : QuoteState α → Prop where
  | create (c : α) : Reachable (createQuote c)
  | save {s : QuoteState α} (c : α) : Reachable s → Reachable (saveVersion s c)
  | restore {s s' : QuoteState α} {v : ℕ} :
      Reachable s → restoreVersion s v = Except.ok s' → Reachable s'

/-- The versioning invariant: the recorded version numbers are exactly
1, 2, …, n in order, the quote's `version` field equals the row count, and
the maximal recorded version equals the row count. -/
def VersionInv {α : Type} (s : QuoteState α) : Prop :=
  s.history.map Snapshot.version = List.range' 1 s.history.length ∧
  s.version = s.history.length ∧
  maxVersion s = s.history.length

/-! ### Frontend code embedded from the source -/

/-- Equipment row as summed by the simple quote builder page
(src/unnamed/part_003, `calculateTotals`). -/
structure PageEquip where
  total_price : ℚ
deriving DecidableEq, Repr

/-- Labor row as summed by the simple quote builder page. -/
structure PageLabor where
  total_cost : ℚ
deriving DecidableEq, Repr

/-- Service row as summed by the simple quote builder page. -/
structure PageService where
  cost : ℚ
deriving DecidableEq, Repr

/-- Shape returned by `calculateTotals` (src/unnamed/part_003). -/
structure PageTotals where
  equipment : ℚ
  labor : ℚ
  services : ℚ
  total : ℚ
deriving DecidableEq, Repr

/-- Embedded from src/unnamed/part_003 lines 302-312: the simple quote
builder's page-level summary, summing equipment `total_price`, labor
`total_cost` and service `cost` for the currently loaded room. -/
def calculateTotals (equipment : List PageEquip) (labor : List PageLabor)
    (services : List PageService) : PageTotals :=
  { equipment := sumBy PageEquip.total_price equipment
    labor := sumBy PageLabor.total_cost labor
    services := sumBy PageService.cost services
    total := sumBy PageEquip.total_price equipment + sumBy PageLabor.total_cost labor
        + sumBy PageService.cost services }

/-- JavaScript value as relevant to the `fetchQuote` coercions in
src/unnamed/part_002: a number, a boolean, null, or undefined. -/
inductive JSValue where
  | num (q : ℚ)
  | bool (b : Bool)
  | null
  | undefined
deriving DecidableEq, Repr

/-- JavaScript truthiness of a `JSValue`: 0, false, null and undefined are
falsy. -/
def truthy : JSValue → Bool
  | .num q => decide (q ≠ 0)
  | .bool b => b
  | .null => false
  | .undefined => false

/-- JavaScript `a || b`: returns `a` when truthy, else `b`. -/
def jsOr (a b : JSValue) : JSValue :=
  if truthy a then a else b

/-- Financial settings of a quote row as returned by the backend to
`fetchQuote` (src/unnamed/part_002). -/
structure StoredQuote where
  equipment_markup_default : JSValue
  tax_rate : JSValue
  tax_enabled : JSValue
deriving DecidableEq, Repr

/-- Financial settings held in the editor's `quoteData` state; this is the
exact object a subsequent save submits (src/unnamed/part_002,
`handleSaveQuote`). -/
structure QuoteFormData where
  equipment_markup_default : JSValue
  tax_rate : JSValue
  tax_enabled : JSValue
deriving DecidableEq, Repr

/-- Embedded from src/unnamed/part_002 lines 141-150 (`fetchQuote`):
`equipment_markup_default: response.data.equipment_markup_default || 20`,
`tax_rate: response.data.tax_rate || 0`,
`tax_enabled: response.data.tax_enabled || false`. -/
def fetchQuoteSetData (r : StoredQuote) : QuoteFormData :=
  { equipment_markup_default := jsOr r.equipment_markup_default (.num 20)
    tax_rate := jsOr r.tax_rate (.num 0)
    tax_enabled := jsOr r.tax_enabled (.bool false) }

/-! ### Helper lemmas -/

theorem sumBy_map {α β : Type} (f : β → ℚ) (g : α → β) (l : List α) :
    sumBy f (l.map g) = sumBy (fun x => f (g x)) l := by
  simp only [sumBy, List.map_map]
  rfl

theorem sumBy_zero {α : Type} (l : List α) : sumBy (fun _ => (0 : ℚ)) l = 0 := by
  simp [sumBy]

theorem maxVersion_saveVersion {α : Type} (s : QuoteState α) (c : α) :
    maxVersion (saveVersion s c) = max (maxVersion s) (maxVersion s + 1) := by
  simp [maxVersion, saveVersion, List.foldl_append]

theorem versionInv_create {α : Type} (c : α) : VersionInv (createQuote c) := by
  refine ⟨?_, rfl, rfl⟩
  simp [createQuote, List.range']

theorem versionInv_save {α : Type} {s : QuoteState α} (h : VersionInv s) (c : α) :
    VersionInv (saveVersion s c) := by
  obtain ⟨h1, h2, h3⟩ := h
  have hh : (saveVersion s c).history.map Snapshot.version
      = s.history.map Snapshot.version ++ [maxVersion s + 1] := by
    simp [saveVersion]
  have hl : (saveVersion s c).history.length = s.history.length + 1 := by
    simp [saveVersion]
  refine ⟨?_, ?_, ?_⟩
  · rw [hh, hl, h1, h3, List.range'_concat]
    simp [Nat.add_comm]
  · show maxVersion s + 1 = _
    rw [hl, h3]
  · rw [maxVersion_saveVersion, hl, h3]
    omega

theorem versionInv_restore {α : Type} {s s' : QuoteState α} {v : ℕ}
    (h : VersionInv s) (hr : restoreVersion s v = Except.ok s') : VersionInv s' := by
  unfold restoreVersion at hr
  cases hfind : findVersion s v with
  | none => rw [hfind] at hr; exact absurd hr (by simp)
  | some snap =>
      rw [hfind] at hr
      have hs' : saveVersion { s with live := snap.content } snap.content = s' := by
        simpa using hr
      rw [← hs']
      exact versionInv_save h snap.content

theorem reachable_versionInv {α : Type} {s : QuoteState α} (h : Reachable s) :
    VersionInv s := by
  induction h with
  | create c => exact versionInv_create c
  | save c _ ih => exact versionInv_save ih c
  | restore _ hr ih => exact versionInv_restore ih hr

theorem roomEquipment_quantity (r : Room) (n : ℕ) :
    roomEquipment { r with quantity := n } = roomEquipment r := rfl

theorem roomEquipPrice_quantity (dm : ℚ) (r : Room) (n : ℕ) :
    roomEquipPrice dm { r with quantity := n } = roomEquipPrice dm r := rfl

theorem roomEquipCost_quantity (dm : ℚ) (r : Room) (n : ℕ) :
    roomEquipCost dm { r with quantity := n } = roomEquipCost dm r := rfl

theorem roomLaborPrice_quantity (r : Room) (n : ℕ) :
    roomLaborPrice { r with quantity := n } = roomLaborPrice r := rfl

theorem roomLaborCost_quantity (r : Room) (n : ℕ) :
    roomLaborCost { r with quantity := n } = roomLaborCost r := rfl

theorem roomServicesPrice_quantity (dm : ℚ) (r : Room) (n : ℕ) :
    roomServicesPrice dm { r with quantity := n } = roomServicesPrice dm r := rfl

/-- A room stripped of its labor and service lines. -/
def clearRoomExtras (r : Room) : Room :=
  { r with labor := [], services := [] }

/-- A room with every equipment line marked tax-exempt. -/
def exemptAllEquipment (r : Room) : Room :=
  { r with systems := r.systems.map (fun s =>
      { s with equipment := s.equipment.map (fun e => { e with tax_exempt := true }) }) }

theorem roomTaxablePrice_clearRoomExtras (dm : ℚ) (r : Room) :
    roomTaxablePrice dm (clearRoomExtras r) = roomTaxablePrice dm r := rfl

theorem roomEquipment_exemptAll (r : Room) :
    roomEquipment (exemptAllEquipment r)
      = (roomEquipment r).map (fun e => { e with tax_exempt := true }) := by
  unfold roomEquipment exemptAllEquipment
  simp only [List.map_map, List.map_flatten]
  rfl

theorem roomTaxablePrice_exemptAll (dm : ℚ) (r : Room) :
    roomTaxablePrice dm (exemptAllEquipment r) = 0 := by
  unfold roomTaxablePrice
  rw [show (exemptAllEquipment r).quantity = r.quantity from rfl,
    roomEquipment_exemptAll, sumBy_map]
  simp [sumBy]

/-! ### Claim theorems -/

/-- C1: for every equipment line, with the effective markup resolved as
`markup_override` when present and otherwise the quote's default markup,
`unit_price = unit_cost * (1 + m/100)`,
`total_price = unit_cost * quantity * (1 + m/100)`,
`total_cost = unit_cost * quantity` and
`margin_dollars = total_price - total_cost` exactly; and in the worked
scenario (unit_cost 100, quantity 2, no override, default markup 20) the
results are unit_price 120, total_price 240, total_cost 200,
margin_dollars 40 and margin_percent 50/3 = 16.666… . -/
theorem equipment_line_totals_correct (e : Equipment) (dm : ℚ) :
    (equipmentLineTotals e dm).unit_price
        = e.unit_cost * (1 + effectiveMarkup e dm / 100) ∧
    (equipmentLineTotals e dm).total_price
        = e.unit_cost * e.quantity * (1 + effectiveMarkup e dm / 100) ∧
    (equipmentLineTotals e dm).total_cost = e.unit_cost * e.quantity ∧
    (equipmentLineTotals e dm).margin_dollars
        = (equipmentLineTotals e dm).total_price - (equipmentLineTotals e dm).total_cost ∧
    equipmentLineTotals
        { quantity := 2, unit_cost := 100, markup_override := none, tax_exempt := false } 20
      = { unit_price := 120, total_price := 240, total_cost := 200,
          margin_dollars := 40, margin_percent := 50 / 3 } := by
  refine ⟨rfl, ?_, rfl, rfl, ?_⟩
  · simp only [equipmentLineTotals, unitSellPrice]
    ring
  · simp only [equipmentLineTotals, unitSellPrice, effectiveMarkup, Option.getD,
      marginPercent, LineTotals.mk.injEq]
    norm_num

/-- C6: a present `markup_override` fully replaces the quote default — the
line totals do not depend on the default markup at all — while a line
without an override uses the default markup. -/
theorem markup_override_fully_replaces (e : Equipment) (o d d1 d2 : ℚ) :
    effectiveMarkup { e with markup_override := some o } d = o ∧
    equipmentLineTotals { e with markup_override := some o } d1
        = equipmentLineTotals { e with markup_override := some o } d2 ∧
    effectiveMarkup { e with markup_override := none } d = d :=
  ⟨rfl, rfl, rfl⟩

/-- C7: the room quantity multiplies every rolled-up figure linearly: a room
with quantity `n` contributes exactly `n` times its single-instance summary,
and doubling a room's quantity doubles every summary field together with the
taxable equipment price it contributes to the quote totals. -/
theorem room_quantity_scales_linearly (dm : ℚ) (r : Room) (n : ℕ) :
    (roomSummary dm { r with quantity := n }).equipment_cost
        = (n : ℚ) * (roomSummary dm { r with quantity := 1 }).equipment_cost ∧
    (roomSummary dm { r with quantity := n }).equipment_price
        = (n : ℚ) * (roomSummary dm { r with quantity := 1 }).equipment_price ∧
    (roomSummary dm { r with quantity := n }).labor_cost
        = (n : ℚ) * (roomSummary dm { r with quantity := 1 }).labor_cost ∧
    (roomSummary dm { r with quantity := n }).labor_price
        = (n : ℚ) * (roomSummary dm { r with quantity := 1 }).labor_price ∧
    (roomSummary dm { r with quantity := n }).services_price
        = (n : ℚ) * (roomSummary dm { r with quantity := 1 }).services_price ∧
    (roomSummary dm { r with quantity := n }).margin
        = (n : ℚ) * (roomSummary dm { r with quantity := 1 }).margin ∧
    (roomSummary dm { r with quantity := 2 * r.quantity }).equipment_price
        = 2 * (roomSummary dm r).equipment_price ∧
    (roomSummary dm { r with quantity := 2 * r.quantity }).labor_price
        = 2 * (roomSummary dm r).labor_price ∧
    (roomSummary dm { r with quantity := 2 * r.quantity }).services_price
        = 2 * (roomSummary dm r).services_price ∧
    (roomSummary dm { r with quantity := 2 * r.quantity }).margin
        = 2 * (roomSummary dm r).margin ∧
    roomTaxablePrice dm { r with quantity := 2 * r.quantity }
        = 2 * roomTaxablePrice dm r := by
  refine ⟨?_, ?_, ?_, ?_, ?_, ?_, ?_, ?_, ?_, ?_, ?_⟩ <;>
    · simp only [roomSummary, roomTaxablePrice, roomEquipment_quantity,
        roomEquipPrice_quantity, roomEquipCost_quantity, roomLaborPrice_quantity,
        roomLaborCost_quantity, roomServicesPrice_quantity]
      push_cast
      ring

/-- C8: margin-percent is total and yields 0 on a zero sell price: at sell
price 0 it is 0, at a nonzero sell price it is `margin / price * 100`, and a
quote whose grand total is 0 (here: no rooms) gets margin_percent 0. -/
theorem margin_percent_total (md tp dm tr : ℚ) (te : Bool) (h : tp ≠ 0) :
    marginPercent md 0 = 0 ∧
    marginPercent md tp = md / tp * 100 ∧
    (quoteTotals (Quote.mk dm tr te [])).margin_percent = 0 := by
  refine ⟨by simp [marginPercent], by simp [marginPercent, h], ?_⟩
  cases te <;> simp [quoteTotals, sumBy, marginPercent]

/-- Witness for C8 at margin 40, sell price 240. -/
theorem margin_percent_total_witness :
    marginPercent 40 0 = 0 ∧
    marginPercent 40 240 = 40 / 240 * 100 ∧
    (quoteTotals (Quote.mk 20 8 true [])).margin_percent = 0 :=
  margin_percent_total 40 240 20 8 true (by norm_num)

/-- C5: the tax total is `tax_rate` percent of the non-exempt equipment sell
price only: it is 0 whenever `tax_enabled` is false, it is unchanged when
all labor and service lines are removed (they never contribute), and it is 0
— regardless of `tax_rate` — when every equipment line is tax-exempt. -/
theorem tax_rules (q : Quote) :
    (quoteTotals { q with tax_enabled := false }).tax = 0 ∧
    (quoteTotals { q with rooms := q.rooms.map clearRoomExtras }).tax
        = (quoteTotals q).tax ∧
    (quoteTotals { q with rooms := q.rooms.map exemptAllEquipment }).tax = 0 := by
  refine ⟨?_, ?_, ?_⟩
  · simp [quoteTotals]
  · simp only [quoteTotals, sumBy_map, roomTaxablePrice_clearRoomExtras]
  · simp only [quoteTotals, sumBy_map, roomTaxablePrice_exemptAll]
    rw [sumBy_zero]
    cases q.tax_enabled <;> simp

/-- Worked-scenario equipment line: unit_cost 100, quantity 2, no markup
override, not tax-exempt. -/
def scenarioEquipment : Equipment :=
  { quantity := 2, unit_cost := 100, markup_override := none, tax_exempt := false }

/-- Worked-scenario labor line: cost rate 50, sell rate 80, 10 hours. -/
def scenarioLabor : Labor :=
  { cost_rate := 50, sell_rate := 80, hours := 10 }

/-- Worked-scenario quote: one room of quantity 2 holding the equipment and
labor lines above, default markup 20, tax rate 8, tax enabled. -/
def scenarioQuote : Quote :=
  Quote.mk 20 8 true
    [Room.mk 2 [System.mk [scenarioEquipment]] [scenarioLabor] []]

/-- C2: the quote-level totals are the sums of the room-level figures, with
`grand_total = equipment_price + labor_price + services_price + tax` and
`total_margin` the sum of room margins; on the worked scenario the totals
are equipment_price 480, labor_price 1600, tax 38.4 and
grand_total 2118.4. -/
theorem quote_totals_rollup (q : Quote) :
    (quoteTotals q).equipment_price
        = sumBy (fun r => (roomSummary q.equipment_markup_default r).equipment_price) q.rooms ∧
    (quoteTotals q).labor_price
        = sumBy (fun r => (roomSummary q.equipment_markup_default r).labor_price) q.rooms ∧
    (quoteTotals q).services_price
        = sumBy (fun r => (roomSummary q.equipment_markup_default r).services_price) q.rooms ∧
    (quoteTotals q).grand_total
        = (quoteTotals q).equipment_price + (quoteTotals q).labor_price
          + (quoteTotals q).services_price + (quoteTotals q).tax ∧
    (quoteTotals q).total_margin
        = sumBy (fun r => (roomSummary q.equipment_markup_default r).margin) q.rooms ∧
    (quoteTotals scenarioQuote).equipment_price = 480 ∧
    (quoteTotals scenarioQuote).labor_price = 1600 ∧
    (quoteTotals scenarioQuote).tax = 38.4 ∧
    (quoteTotals scenarioQuote).grand_total = 2118.4 := by
  refine ⟨rfl, rfl, rfl, rfl, rfl, ?_, ?_, ?_, ?_⟩ <;>
    · simp only [quoteTotals, scenarioQuote, roomSummary, roomEquipPrice, roomEquipCost,
        roomLaborPrice, roomLaborCost, roomServicesPrice, roomTaxablePrice, roomEquipment,
        sumBy, equipmentLineTotals, laborLineTotals, unitSellPrice, effectiveMarkup,
        scenarioEquipment, scenarioLabor, Option.getD, List.map_cons, List.map_nil,
        List.flatten, List.sum_cons, List.sum_nil, if_true]
      norm_num

/-- C3: for every reachable versioning state, the recorded version numbers
form the contiguous sequence 1, 2, …, n, the quote's `version` field equals
the count of its QuoteVersion rows, and a further save appends exactly one
new row carrying version `previous_max + 1`. -/
theorem version_numbers_contiguous {α : Type} (s : QuoteState α) (c : α)
    (h : Reachable s) :
    s.history.map Snapshot.version = List.range' 1 s.history.length ∧
    s.version = s.history.length ∧
    (saveVersion s c).history
        = s.history ++ [{ version := s.history.length + 1, content := c }] := by
  obtain ⟨h1, h2, h3⟩ := reachable_versionInv h
  refine ⟨h1, h2, ?_⟩
  simp [saveVersion, h3]

/-- Witness for C3: a quote created with content 0 then saved with content 5
(the further save uses content 7). -/
theorem version_numbers_contiguous_witness :
    (saveVersion (createQuote (0 : ℕ)) 5).history.map Snapshot.version
        = List.range' 1 (saveVersion (createQuote (0 : ℕ)) 5).history.length ∧
    (saveVersion (createQuote (0 : ℕ)) 5).version
        = (saveVersion (createQuote (0 : ℕ)) 5).history.length ∧
    (saveVersion (saveVersion (createQuote (0 : ℕ)) 5) 7).history
        = (saveVersion (createQuote (0 : ℕ)) 5).history
          ++ [{ version := (saveVersion (createQuote (0 : ℕ)) 5).history.length + 1
                content := 7 }] :=
  version_numbers_contiguous _ 7 (Reachable.save 5 (Reachable.create 0))

/-- C4: restoring an existing version succeeds, overwrites the live content
to exactly the snapshot's content, and appends one new version numbered
`previous_max + 1` whose content also equals the snapshot; the previous
history is kept unchanged as a prefix, so no past snapshot is deleted or
rewritten. -/
theorem restoreVersion_restores {α : Type} (s : QuoteState α) (v : ℕ)
    (snap : Snapshot α) (h : Reachable s) (hfind : findVersion s v = some snap) :
    restoreVersion s v
        = Except.ok (saveVersion { s with live := snap.content } snap.content) ∧
    (saveVersion { s with live := snap.content } snap.content).live = snap.content ∧
    (saveVersion { s with live := snap.content } snap.content).history
        = s.history ++ [{ version := s.history.length + 1, content := snap.content }] := by
  obtain ⟨h1, h2, h3⟩ := reachable_versionInv h
  refine ⟨?_, rfl, ?_⟩
  · unfold restoreVersion
    rw [hfind]
  · have hmax : maxVersion { s with live := snap.content } = s.history.length := h3
    simp [saveVersion, hmax]

/-- A three-version quote history: created with content 10, then saved with
contents 20 and 30. -/
def exampleState : QuoteState ℕ :=
  saveVersion (saveVersion (createQuote 10) 20) 30

/-- Witness for C4: restoring version 1 of the three-version `exampleState`
yields a state whose live content is 10 and whose history is the old one
plus a fourth version with content 10 — matching the spec scenario. -/
theorem restoreVersion_restores_witness :
    restoreVersion exampleState 1
        = Except.ok (saveVersion { exampleState with live := 10 } 10) ∧
    (saveVersion { exampleState with live := 10 } 10).live = 10 ∧
    (saveVersion { exampleState with live := 10 } 10).history
        = exampleState.history
          ++ [{ version := exampleState.history.length + 1, content := 10 }] :=
  restoreVersion_restores exampleState 1 { version := 1, content := 10 }
    (Reachable.save 30 (Reachable.save 20 (Reachable.create 10)))
    (by decide)

/-- C9: `restoreVersion` fails with the distinct not-found error exactly
when no snapshot with the requested version number exists; the operation is
a pure function of the state, so in the error case no new state is produced
and the live quote and history are untouched. -/
theorem restore_notFound_iff {α : Type} (s : QuoteState α) (v : ℕ) :
    restoreVersion s v = Except.error RestoreError.notFound ↔
      ∀ snap ∈ s.history, snap.version ≠ v := by
  unfold restoreVersion findVersion
  cases hfind : s.history.find? (fun snap => snap.version == v) with
  | none =>
      have hnone := List.find?_eq_none.mp hfind
      constructor
      · intro _ snap hm
        simpa using hnone snap hm
      · intro _
        rfl
  | some snap =>
      have hmem := List.mem_of_find?_eq_some hfind
      have hp := List.find?_some hfind
      constructor
      · intro hcontra
        exact absurd hcontra (by simp)
      · intro hall
        exact absurd (by simpa using hp) (hall snap hmem)

/-- C10: `fetchQuote` coerces falsy stored financial settings with `||`: a
stored `equipment_markup_default` of 0 becomes 20, a falsy `tax_rate`
becomes 0, and a falsy `tax_enabled` becomes false; the resulting
`quoteData` is exactly what the editor displays and what the next save
submits. -/
theorem fetchQuote_coerces_defaults (r : StoredQuote)
    (h1 : r.equipment_markup_default = JSValue.num 0)
    (h2 : truthy r.tax_rate = false)
    (h3 : truthy r.tax_enabled = false) :
    (fetchQuoteSetData r).equipment_markup_default = JSValue.num 20 ∧
    (fetchQuoteSetData r).tax_rate = JSValue.num 0 ∧
    (fetchQuoteSetData r).tax_enabled = JSValue.bool false := by
  refine ⟨?_, ?_, ?_⟩
  · norm_num [fetchQuoteSetData, jsOr, truthy, h1]
  · simp [fetchQuoteSetData, jsOr, h2]
  · simp [fetchQuoteSetData, jsOr, h3]

/-- Witness for C10: a stored quote with markup 0, null tax rate and
undefined tax flag is presented as markup 20, tax rate 0, tax flag false. -/
theorem fetchQuote_coerces_defaults_witness :
    (fetchQuoteSetData
        (StoredQuote.mk (JSValue.num 0) JSValue.null JSValue.undefined)).equipment_markup_default
        = JSValue.num 20 ∧
    (fetchQuoteSetData
        (StoredQuote.mk (JSValue.num 0) JSValue.null JSValue.undefined)).tax_rate
        = JSValue.num 0 ∧
    (fetchQuoteSetData
        (StoredQuote.mk (JSValue.num 0) JSValue.null JSValue.undefined)).tax_enabled
        = JSValue.bool false :=
  fetchQuote_coerces_defaults _ rfl rfl rfl

end BidTool
